import Mathlib

/-!
Shallow embedding of `src/lib/stack-metrics.js` (the StackMetrics client-side
metrics buffer).  JavaScript numbers are modelled as rationals (`ℚ`), which
makes the rate arithmetic `(value / elapsed) * rateInterval` exact; the
JavaScript value `undefined` is modelled as `Option.none`.  The `metricsMap`
(a JS `Map` keyed by metric name with insertion order) is modelled as a
`List Metric` whose entries carry their own `name`; keys are unique in a JS
`Map`, so updates replace the first (only) entry with a matching name.

The two backend calls (`createMetricDescriptor`, `createTimeSeries`) are
external I/O; their outcomes enter the model as boolean parameters
(`regOk` / `subOk`), with the restriction that an empty batch cannot fail
because no request is issued for it.
-/

namespace StackMetricsSpec

/-- JavaScript truthiness of a possibly-undefined number: `undefined` and `0`
are falsy, every other number is truthy.  Used for `if (metric.rateInterval)`
in `writeMetric` and in the flush phase. -/
def jsTruthy (x : Option ℚ) : Bool :=
  match x with
  | none => false
  | some v => v != 0

/-- The string constants `StackMetrics.VALUE_TYPE_...`. -/
def VALUE_TYPE_INT64 : String := "INT64"

def VALUE_TYPE_BOOL : String := "BOOL"

def VALUE_TYPE_DOUBLE : String := "DOUBLE"

/-- The string constants `StackMetrics.TYPE_...`. -/
def TYPE_INT64 : String := "INT64"

def TYPE_BOOL : String := "BOOL"

def TYPE_DOUBLE : String := "DOUBLE"

def TYPE_RATE_PER_SECOND : String := "RATE_PER_SECOND"

def TYPE_RATE_PER_MINUTE : String := "RATE_PER_MINUTE"

def TYPE_RATE_PER_HOUR : String := "RATE_PER_HOUR"

def TYPE_RATE_PER_DAY : String := "RATE_PER_DAY"

/-- `StackMetrics._getValueTypeForMetricType`: maps a metric type string to its
value type; `none` models the `throw new Error('Unknown metricType')` default
branch. -/
def getValueTypeForMetricType (metricType : String) : Option String :=
  if metricType = TYPE_INT64 then some VALUE_TYPE_INT64
  else if metricType = TYPE_BOOL then some VALUE_TYPE_BOOL
  else if metricType = TYPE_DOUBLE then some VALUE_TYPE_DOUBLE
  else if metricType = TYPE_RATE_PER_SECOND then some VALUE_TYPE_DOUBLE
  else if metricType = TYPE_RATE_PER_MINUTE then some VALUE_TYPE_DOUBLE
  else if metricType = TYPE_RATE_PER_HOUR then some VALUE_TYPE_DOUBLE
  else if metricType = TYPE_RATE_PER_DAY then some VALUE_TYPE_DOUBLE
  else none

/-- `StackMetrics._getRateIntervalForMetricType`: milliseconds of the rate unit
for the four rate kinds, `undefined` (here `none`) for everything else. -/
def getRateIntervalForMetricType (metricType : String) : Option ℚ :=
  if metricType = TYPE_RATE_PER_SECOND then some 1000
  else if metricType = TYPE_RATE_PER_MINUTE then some (1000 * 60)
  else if metricType = TYPE_RATE_PER_HOUR then some (1000 * 3600)
  else if metricType = TYPE_RATE_PER_DAY then some (1000 * 3600 * 24)
  else none

/-- The `descriptor` object built by `createMetric` (the label array is fixed
and carries no per-metric data, so it is omitted). -/
structure Descriptor where
  description : String
  displayName : String
  type : String
  metricKind : String
  valueType : String
  deriving DecidableEq, Repr

/-- One entry of `this.metricsMap`.  `value` is the accumulator:
for rate kinds a number starting at `0`, for other kinds `undefined` (`none`)
until written.  `responseDescriptor` is `none` until a successful
`createMetricDescriptor` response is recorded for this metric. -/
structure Metric where
  name : String
  valueType : String
  requestDescriptor : Descriptor
  responseDescriptor : Option Descriptor
  rateInterval : Option ℚ
  value : Option ℚ
  deriving DecidableEq, Repr

/-- The mutable state of a `StackMetrics` instance (the backend client handle,
timer and log calls carry no model state and are omitted). -/
structure StackMetrics where
  projectId : String
  appName : String
  envName : String
  metricGroupName : String
  prevSendTimestamp : ℚ
  metricsMap : List Metric
  deriving DecidableEq, Repr

/-- The `StackMetric` handle returned by `createMetric`: a name reference plus
the handle-local running count used by `writeCount`. -/
structure StackMetric where
  metricName : String
  count : ℚ
  deriving DecidableEq, Repr

/-- `this.metricsMap.get(metricName)` on the list model. -/
def findMetric (s : StackMetrics) (metricName : String) : Option Metric :=
  s.metricsMap.find? (fun m => m.name = metricName)

/-- `this.metricsMap.set(metricName, entry)`: replace the entry with this key
if present (JS `Map.set` keeps its position), else append. -/
def mapSet (ms : List Metric) (m : Metric) : List Metric :=
  match ms with
  | [] => [m]
  | x :: rest => if x.name = m.name then m :: rest else x :: mapSet rest m

/-- Update the (unique) entry with the given name in place, leaving the rest of
the list untouched. -/
def updateMetric (ms : List Metric) (metricName : String) (f : Metric → Metric) :
    List Metric :=
  match ms with
  | [] => []
  | x :: rest =>
    if x.name = metricName then f x :: rest else x :: updateMetric rest metricName f

/-- `StackMetrics.createMetric`.  Evaluating
`_getValueTypeForMetricType(metricType)` inside the descriptor literal throws
for an unknown type before anything is stored, so the whole call is `none` in
that case and the map is untouched. -/
def createMetric (s : StackMetrics) (metricName metricDescription metricType : String) :
    Option (StackMetrics × StackMetric) :=
  match getValueTypeForMetricType metricType with
  | none => none
  | some vt =>
    let displayName :=
      if s.metricGroupName = s.appName then s.appName ++ "." ++ metricName
      else metricName
    let descriptor : Descriptor :=
      { description := metricDescription
        displayName := displayName
        type := "custom.googleapis.com/" ++ s.metricGroupName ++ "/" ++ metricName
        metricKind := "GAUGE"
        valueType := vt }
    let rateInterval := getRateIntervalForMetricType metricType
    let entry : Metric :=
      { name := metricName
        valueType := vt
        requestDescriptor := descriptor
        responseDescriptor := none
        rateInterval := rateInterval
        value := if rateInterval.isSome then some 0 else none }
    some ({ s with metricsMap := mapSet s.metricsMap entry },
          { metricName := metricName, count := 0 })

/-- `StackMetrics.writeMetric`.  `metricsMap.get` on an unknown name yields
`undefined` and the following `metric.rateInterval` access throws a
`TypeError`, modelled as `none`; otherwise the accumulator is updated per the
truthiness of `rateInterval` (add for rate kinds, replace otherwise).
A rate metric's `value` is a number by construction (initialised to `0`),
so the `Option.map` on the add branch never sees `none` on reachable states. -/
def writeMetric (s : StackMetrics) (metricName : String) (value : ℚ) :
    Option StackMetrics :=
  match findMetric s metricName with
  | none => none
  | some _ =>
    some { s with
           metricsMap := updateMetric s.metricsMap metricName (fun m =>
             if jsTruthy m.rateInterval then { m with value := m.value.map (· + value) }
             else { m with value := some value }) }

/-- `StackMetric.writeCount` (variant of `src/lib/stack-metrics.js`): bump the
handle-local running count, then forward the RUNNING COUNT — not the delta —
to `writeMetric`. -/
def StackMetric.writeCount (h : StackMetric) (s : StackMetrics) (delta : ℚ) :
    Option (StackMetric × StackMetrics) :=
  let h2 : StackMetric := { h with count := h.count + delta }
  (writeMetric s h.metricName h2.count).map (fun s2 => (h2, s2))

/-- `StackMetric.writeRate`: forwards the delta unchanged. -/
def StackMetric.writeRate (h : StackMetric) (s : StackMetrics) (delta : ℚ) :
    Option (StackMetric × StackMetrics) :=
  (writeMetric s h.metricName delta).map (fun s2 => (h, s2))

/-- `StackMetric.write`: forwards the value unchanged. -/
def StackMetric.write (h : StackMetric) (s : StackMetrics) (value : ℚ) :
    Option (StackMetric × StackMetrics) :=
  (writeMetric s h.metricName value).map (fun s2 => (h, s2))

/-- JavaScript `str.split('/')` on the character list of `str`: the list of
groups between slashes (adjacent, leading and trailing slashes produce empty
groups, exactly as in JS). -/
def splitOnSlash (cs : List Char) : List (List Char) :=
  match cs with
  | [] => [[]]
  | c :: rest =>
    if c = '/' then [] :: splitOnSlash rest
    else
      match splitOnSlash rest with
      | [] => [[c]]
      | g :: gs => (c :: g) :: gs

/-- `StackMetrics._getMetricName`: last path segment of a descriptor type
string (`type.split('/').pop()`), e.g.
"custom.googleapis.com/testapp/testValue1" yields "testValue1". -/
def getMetricName (type : String) : String :=
  ((splitOnSlash type.toList).getLastD []).asString

/-- The metrics with no `responseDescriptor` yet: exactly the ones for which
`_sendCreateMetrics` issues a `createMetricDescriptor` request. -/
def pendingRegistrations (s : StackMetrics) : List Metric :=
  s.metricsMap.filter (fun m => m.responseDescriptor.isNone)

/-- One `responses.forEach` step of `_sendCreateMetrics`: record the echoed
descriptor on the metric whose name is the last path segment of the
descriptor's type.  (When no entry matches, the source would throw on the
`undefined` lookup; that cannot happen for descriptors built by
`createMetric`, whose type ends in "/" ++ name, and the model leaves the map
unchanged in that case.) -/
def recordResponse (ms : List Metric) (d : Descriptor) : List Metric :=
  updateMetric ms (getMetricName d.type) (fun m => { m with responseDescriptor := some d })

/-- `StackMetrics._sendCreateMetrics`.  One `createMetricDescriptor` request is
issued per pending metric; the backend echoes each request descriptor.  With no
pending metrics, `Promise.all([])` resolves and no request is issued, so the
call cannot fail.  `regOk = false` models the batch rejecting: the error is
rethrown before any `responseDescriptor` is recorded. -/
def sendCreateMetrics (s : StackMetrics) (regOk : Bool) : Option StackMetrics :=
  if pendingRegistrations s = [] then some s
  else if regOk then
    some { s with
           metricsMap :=
             (pendingRegistrations s).foldl
               (fun ms m => recordResponse ms m.requestDescriptor) s.metricsMap }
  else none

/-- The in-place rate conversion applied by `_sendTimeSeries` to each metric
with a truthy `rateInterval`: overwrite `value` with
`(value / elapsed) * rateInterval`, or with `0` when `elapsed <= 0`.
Metrics with a falsy `rateInterval` are left untouched. -/
def convertMetric (prev now : ℚ) (m : Metric) : Metric :=
  if jsTruthy m.rateInterval then
    if now - prev > 0 then
      { m with value := m.value.map (fun v => v / (now - prev) * m.rateInterval.getD 0) }
    else { m with value := some 0 }
  else m

/-- The filter of `_sendTimeSeries`: a metric contributes a time series iff
`metric.rateInterval || metric.value !== undefined` (evaluated after the rate
conversion has run). -/
def includedInSeries (m : Metric) : Bool :=
  jsTruthy m.rateInterval || m.value.isSome

/-- One entry of the `timeSeries` array (`_createTimeSeriesData` plus
`_createDataPoint`): descriptor type, metric name, value type, the single data
point's value, and its end time in seconds (`timestamp / 1000`). -/
structure TimeSeriesEntry where
  metricType : String
  metricName : String
  valueType : String
  pointValue : Option ℚ
  endTimeSeconds : ℚ
  deriving DecidableEq, Repr

/-- `StackMetrics._createTimeSeriesData` restricted to the model fields. -/
def createTimeSeriesData (timestamp : ℚ) (m : Metric) : TimeSeriesEntry :=
  { metricType := m.requestDescriptor.type
    metricName := m.name
    valueType := m.valueType
    pointValue := m.value
    endTimeSeconds := timestamp / 1000 }

/-- The `timeSeriesData` array a flush at `timestamp` would build: convert the
rate metrics from the window starting at `s.prevSendTimestamp`, keep the
included ones, and build one entry per kept metric. -/
def flushPoints (s : StackMetrics) (timestamp : ℚ) : List TimeSeriesEntry :=
  ((s.metricsMap.map (convertMetric s.prevSendTimestamp timestamp)).filter
    includedInSeries).map (createTimeSeriesData timestamp)

/-- The success-path reset of `_sendTimeSeries`, applied to EVERY metric of the
map: rate kinds back to `0`, everything else to `undefined`. -/
def resetMetric (m : Metric) : Metric :=
  if jsTruthy m.rateInterval then { m with value := some 0 }
  else { m with value := none }

/-- `StackMetrics._sendTimeSeries`.  Rate conversion mutates the accumulators
in place, then `prevSendTimestamp` is advanced to `timestamp` unconditionally,
then the entries are built.  A non-empty batch is submitted: on success every
metric is reset and the entries are returned, on failure (`subOk = false`) the
error propagates with the converted-but-unreset state.  An empty batch is not
submitted and is not an error. -/
def sendTimeSeries (s : StackMetrics) (timestamp : ℚ) (subOk : Bool) :
    Except StackMetrics (List TimeSeriesEntry × StackMetrics) :=
  let ms1 := s.metricsMap.map (convertMetric s.prevSendTimestamp timestamp)
  let s1 : StackMetrics := { s with prevSendTimestamp := timestamp, metricsMap := ms1 }
  let timeSeriesData := (ms1.filter includedInSeries).map (createTimeSeriesData timestamp)
  if timeSeriesData.length > 0 then
    if subOk then
      Except.ok (timeSeriesData, { s1 with metricsMap := ms1.map resetMetric })
    else Except.error s1
  else Except.ok ([], s1)

/-- Outcome of one full `sendValues` cycle. -/
inductive FlushOutcome where
  /-- `_sendCreateMetrics` rejected; `sendValues` rethrows with this state. -/
  | registrationFailed (s : StackMetrics)
  /-- `createTimeSeries` rejected; `sendValues` rethrows with this state. -/
  | submissionFailed (s : StackMetrics)
  /-- The cycle completed; `points` is the submitted batch ([] when nothing
  was sent). -/
  | flushed (points : List TimeSeriesEntry) (s : StackMetrics)
  deriving DecidableEq, Repr

/-- The state carried by an outcome. -/
def FlushOutcome.state : FlushOutcome → StackMetrics
  | .registrationFailed s => s
  | .submissionFailed s => s
  | .flushed _ s => s

/-- The submitted batch of an outcome ([] for the failure outcomes). -/
def FlushOutcome.points : FlushOutcome → List TimeSeriesEntry
  | .registrationFailed _ => []
  | .submissionFailed _ => []
  | .flushed points _ => points

/-- Whether the outcome is the completed one. -/
def FlushOutcome.isFlushed : FlushOutcome → Bool
  | .flushed _ _ => true
  | _ => false

/-- Whether the outcome is a Phase 2 submission failure. -/
def FlushOutcome.isSubmissionFailed : FlushOutcome → Bool
  | .submissionFailed _ => true
  | _ => false

/-- `StackMetrics.sendValues`: Phase 1 (descriptor registration) then Phase 2
(time-series submission); a Phase 1 rejection aborts the cycle before
Phase 2 runs. -/
def sendValues (s : StackMetrics) (timestamp : ℚ) (regOk subOk : Bool) :
    FlushOutcome :=
  match sendCreateMetrics s regOk with
  | none => .registrationFailed s
  | some s1 =>
    match sendTimeSeries s1 timestamp subOk with
    | .error s2 => .submissionFailed s2
    | .ok (points, s2) => .flushed points s2

/-- The state carried by a Phase 2 result, whichever way it went. -/
def submissionResultState
    (r : Except StackMetrics (List TimeSeriesEntry × StackMetrics)) : StackMetrics :=
  match r with
  | .error s => s
  | .ok (_, s) => s

/-- Relation between an old and a new metric record stating that the
registration bookkeeping touched neither identity nor accumulator: same
`name`, same `value`, same `rateInterval`. -/
def preservesCore (a b : Metric) : Prop :=
  b.name = a.name ∧ b.value = a.value ∧ b.rateInterval = a.rateInterval

/-! Concrete example instances, used to evaluate the theorems on explicit
inputs. -/

/-- A fresh instance with no metrics, previous flush at time 0. -/
def initialState : StackMetrics :=
  { projectId := "p", appName := "a", envName := "e", metricGroupName := "g",
    prevSendTimestamp := 0, metricsMap := [] }

/-- A concrete RATE_PER_SECOND metric named "r" holding the delta-sum 5,
not yet registered with the backend. -/
def rateMetricR : Metric :=
  { name := "r"
    valueType := "DOUBLE"
    requestDescriptor :=
      { description := "d", displayName := "r",
        type := "custom.googleapis.com/g/r", metricKind := "GAUGE",
        valueType := "DOUBLE" }
    responseDescriptor := none
    rateInterval := some 1000
    value := some 5 }

/-- An instance holding just `rateMetricR`. -/
def stateR : StackMetrics :=
  { initialState with metricsMap := [rateMetricR] }

/-- A concrete INT64 gauge metric named "q" holding the written value 7. -/
def gaugeMetricQ : Metric :=
  { name := "q"
    valueType := "INT64"
    requestDescriptor :=
      { description := "d", displayName := "q",
        type := "custom.googleapis.com/g/q", metricKind := "GAUGE",
        valueType := "INT64" }
    responseDescriptor := none
    rateInterval := none
    value := some 7 }

/-- An instance holding `rateMetricR` and `gaugeMetricQ`. -/
def stateRQ : StackMetrics :=
  { initialState with metricsMap := [rateMetricR, gaugeMetricQ] }

/-- The handle-and-accumulator run behind claim C2: create a RATE_PER_SECOND
metric, then call `writeCount 3` and `writeCount 2` on its handle; the result
is the metric's final accumulated value. -/
def writeCountTwiceRun : Option (Option ℚ) :=
  ((createMetric initialState "requests" "req" TYPE_RATE_PER_SECOND).bind
      (fun p => (p.2.writeCount p.1 3).bind (fun q => q.1.writeCount q.2 2))).bind
    (fun q => (findMetric q.2 "requests").map Metric.value)

/-! Helper lemmas about the per-metric transformations of the flush phase. -/

@[simp]
theorem convertMetric_name (prev now : ℚ) (m : Metric) :
    (convertMetric prev now m).name = m.name := by
  unfold convertMetric
  split
  · split <;> rfl
  · rfl

@[simp]
theorem convertMetric_rateInterval (prev now : ℚ) (m : Metric) :
    (convertMetric prev now m).rateInterval = m.rateInterval := by
  unfold convertMetric
  split
  · split <;> rfl
  · rfl

@[simp]
theorem convertMetric_responseDescriptor (prev now : ℚ) (m : Metric) :
    (convertMetric prev now m).responseDescriptor = m.responseDescriptor := by
  unfold convertMetric
  split
  · split <;> rfl
  · rfl

theorem convertMetric_of_not_truthy (prev now : ℚ) (m : Metric)
    (h : jsTruthy m.rateInterval = false) : convertMetric prev now m = m := by
  unfold convertMetric
  rw [h]
  simp

theorem convertMetric_value_of_truthy (prev now : ℚ) (m : Metric)
    (h : jsTruthy m.rateInterval = true) :
    (convertMetric prev now m).value =
      if now - prev > 0 then m.value.map (fun v => v / (now - prev) * m.rateInterval.getD 0)
      else some 0 := by
  unfold convertMetric
  rw [h]
  simp only [if_true]
  split <;> rfl

@[simp]
theorem resetMetric_name (m : Metric) : (resetMetric m).name = m.name := by
  unfold resetMetric
  split <;> rfl

@[simp]
theorem resetMetric_rateInterval (m : Metric) :
    (resetMetric m).rateInterval = m.rateInterval := by
  unfold resetMetric
  split <;> rfl

@[simp]
theorem resetMetric_responseDescriptor (m : Metric) :
    (resetMetric m).responseDescriptor = m.responseDescriptor := by
  unfold resetMetric
  split <;> rfl

theorem resetMetric_value (m : Metric) :
    (resetMetric m).value = if jsTruthy m.rateInterval then some 0 else none := by
  unfold resetMetric
  split <;> simp_all

theorem jsTruthy_of_some_ne (u : ℚ) (x : Option ℚ) (hx : x = some u) (hu : u ≠ 0) :
    jsTruthy x = true := by
  subst hx
  simp [jsTruthy, hu]

theorem flushedOutcome_eq (o : FlushOutcome) (h : o.isFlushed = true) :
    o = .flushed o.points o.state := by
  cases o <;> simp_all [FlushOutcome.isFlushed, FlushOutcome.points, FlushOutcome.state]

theorem submissionFailedOutcome_eq (o : FlushOutcome)
    (h : o.isSubmissionFailed = true) : o = .submissionFailed o.state := by
  cases o <;> simp_all [FlushOutcome.isSubmissionFailed, FlushOutcome.state]

/-- A completed `sendValues` cycle decomposes into a successful Phase 1 and a
non-throwing Phase 2. -/
theorem sendValues_flushed_elim (s : StackMetrics) (now : ℚ) (regOk subOk : Bool)
    (pts : List TimeSeriesEntry) (s2 : StackMetrics)
    (h : sendValues s now regOk subOk = .flushed pts s2) :
    ∃ s1, sendCreateMetrics s regOk = some s1 ∧
      sendTimeSeries s1 now subOk = Except.ok (pts, s2) := by
  unfold sendValues at h
  cases hreg : sendCreateMetrics s regOk with
  | none => simp only [hreg] at h; exact absurd h (by simp)
  | some s1 =>
    simp only [hreg] at h
    cases hst : sendTimeSeries s1 now subOk with
    | error s3 => simp only [hst] at h; exact absurd h (by simp)
    | ok p =>
      obtain ⟨pts3, s3⟩ := p
      simp only [hst, FlushOutcome.flushed.injEq] at h
      obtain ⟨hpts, hs⟩ := h
      exact ⟨s1, rfl, by rw [hst, hpts, hs]⟩

/-- A submission-failed `sendValues` cycle decomposes into a successful
Phase 1 and a throwing Phase 2. -/
theorem sendValues_submissionFailed_elim (s : StackMetrics) (now : ℚ)
    (regOk subOk : Bool) (s2 : StackMetrics)
    (h : sendValues s now regOk subOk = .submissionFailed s2) :
    ∃ s1, sendCreateMetrics s regOk = some s1 ∧
      sendTimeSeries s1 now subOk = Except.error s2 := by
  unfold sendValues at h
  cases hreg : sendCreateMetrics s regOk with
  | none => simp only [hreg] at h; exact absurd h (by simp)
  | some s1 =>
    simp only [hreg] at h
    cases hst : sendTimeSeries s1 now subOk with
    | error s3 =>
      simp only [hst, FlushOutcome.submissionFailed.injEq] at h
      exact ⟨s1, rfl, by rw [hst, h]⟩
    | ok p =>
      obtain ⟨pts3, s3⟩ := p
      simp only [hst] at h
      exact absurd h (by simp)

/-- A throwing Phase 2 leaves the converted-but-unreset state: the window
advanced to `now` and every metric replaced by its in-place rate conversion. -/
theorem sendTimeSeries_error_state (s : StackMetrics) (now : ℚ) (subOk : Bool)
    (s2 : StackMetrics) (h : sendTimeSeries s now subOk = Except.error s2) :
    s2 = { s with prevSendTimestamp := now,
                  metricsMap := s.metricsMap.map (convertMetric s.prevSendTimestamp now) } := by
  unfold sendTimeSeries at h
  dsimp only at h
  split at h
  · split at h
    · exact absurd h (by simp)
    · simp only [Except.error.injEq] at h
      exact h.symm
  · exact absurd h (by simp)

/-- A non-throwing Phase 2 leaves one of two states: the reset state (after a
successful submission of a non-empty batch), or the converted state with an
empty batch that was never submitted. -/
theorem sendTimeSeries_ok_state (s : StackMetrics) (now : ℚ) (subOk : Bool)
    (pts : List TimeSeriesEntry) (s2 : StackMetrics)
    (h : sendTimeSeries s now subOk = Except.ok (pts, s2)) :
    (s2.metricsMap =
        (s.metricsMap.map (convertMetric s.prevSendTimestamp now)).map resetMetric) ∨
    (pts = [] ∧
      s2.metricsMap = s.metricsMap.map (convertMetric s.prevSendTimestamp now) ∧
      (s.metricsMap.map (convertMetric s.prevSendTimestamp now)).filter
        includedInSeries = []) := by
  unfold sendTimeSeries at h
  dsimp only at h
  split at h
  · split at h
    · simp only [Except.ok.injEq, Prod.mk.injEq] at h
      exact Or.inl (by rw [← h.2])
    · exact absurd h (by simp)
  · next hl =>
    simp only [Except.ok.injEq, Prod.mk.injEq] at h
    refine Or.inr ⟨h.1.symm, by rw [← h.2], ?_⟩
    simp only [gt_iff_lt, Nat.pos_iff_ne_zero, ne_eq, not_not,
      List.length_eq_zero, List.map_eq_nil_iff] at hl
    exact hl

/-- Every metric of the state left by a completed `sendValues` cycle has been
reset: rate kinds (truthy `rateInterval`) hold `0`, everything else holds
`undefined`.  This also covers the nothing-to-send case, where the conclusion
holds because every metric was already in this shape. -/
theorem flushed_values (s : StackMetrics) (now : ℚ) (regOk subOk : Bool)
    (pts : List TimeSeriesEntry) (s2 : StackMetrics)
    (h : sendValues s now regOk subOk = .flushed pts s2) :
    ∀ m ∈ s2.metricsMap, (jsTruthy m.rateInterval = true → m.value = some 0) ∧
      (jsTruthy m.rateInterval = false → m.value = none) := by
  obtain ⟨s1, -, hst⟩ := sendValues_flushed_elim s now regOk subOk pts s2 h
  rcases sendTimeSeries_ok_state s1 now subOk pts s2 hst with hres | ⟨-, hconv, hfil⟩
  · intro m hm
    rw [hres] at hm
    simp only [List.mem_map] at hm
    obtain ⟨x, -, hx⟩ := hm
    subst hx
    rw [resetMetric_value, resetMetric_rateInterval]
    constructor
    · intro ht; rw [ht]; rfl
    · intro ht; rw [ht]; rfl
  · intro m hm
    rw [hconv] at hm
    have hincl := List.filter_eq_nil_iff.1 hfil m hm
    simp only [includedInSeries, Bool.or_eq_true, not_or, Bool.not_eq_true] at hincl
    obtain ⟨h1, h2⟩ := hincl
    constructor
    · intro ht; rw [ht] at h1; exact absurd h1 (by simp)
    · intro ht
      cases hv : m.value with
      | none => rfl
      | some v => rw [hv] at h2; exact absurd h2 (by simp)

/-- C1: for every rate-kind metric (rateInterval `u ≠ 0`, accumulated delta-sum
`S`) flushed at `now` with previous flush at `s.prevSendTimestamp`, the batch
contains an entry for it whose submitted value is `(S / (now - prev)) * u`
when `now - prev > 0`, and `0` when `now - prev <= 0`. -/
theorem rate_flush_value_formula (s : StackMetrics) (now : ℚ) (m : Metric)
    (u S : ℚ) (hm : m ∈ s.metricsMap) (hu : m.rateInterval = some u) (hu0 : u ≠ 0)
    (hv : m.value = some S) :
    ∃ p ∈ flushPoints s now, p.metricName = m.name ∧
      p.pointValue = some (if now - s.prevSendTimestamp > 0
        then S / (now - s.prevSendTimestamp) * u else 0) := by
  have htr : jsTruthy m.rateInterval = true := jsTruthy_of_some_ne u _ hu hu0
  refine ⟨createTimeSeriesData now (convertMetric s.prevSendTimestamp now m), ?_, ?_, ?_⟩
  · unfold flushPoints
    refine List.mem_map_of_mem _ (List.mem_filter.2 ⟨List.mem_map_of_mem _ hm, ?_⟩)
    simp [includedInSeries, htr]
  · simp [createTimeSeriesData]
  · simp only [createTimeSeriesData]
    rw [convertMetric_value_of_truthy _ _ _ htr]
    rw [hv, hu]
    split <;> simp

/-- C1 witness: the spec scenario — delta-sum 5 over a 2000 ms window with a
per-second unit submits the rate 5 / 2000 * 1000 = 5/2. -/
theorem rate_flush_value_formula_witness :
    (rateMetricR ∈ stateR.metricsMap ∧ rateMetricR.rateInterval = some 1000 ∧
      (1000 : ℚ) ≠ 0 ∧ rateMetricR.value = some 5) ∧
    ∃ p ∈ flushPoints stateR 2000, p.metricName = rateMetricR.name ∧
      p.pointValue = some (if (2000 : ℚ) - stateR.prevSendTimestamp > 0
        then 5 / (2000 - stateR.prevSendTimestamp) * 1000 else 0) :=
  ⟨by decide, rate_flush_value_formula stateR 2000 rateMetricR 1000 5
    (by decide) (by decide) (by decide) (by decide)⟩

/-- C2 (code behavior at the failing input): on a handle bound to a fresh
RATE_PER_SECOND metric, `writeCount 3` then `writeCount 2` leaves the
accumulator at 8 — the running totals 3 and 5 were forwarded — whereas
forwarding the deltas would leave 3 + 2 = 5. -/
theorem writeCount_forwards_running_total :
    writeCountTwiceRun = some (some 8) ∧ (8 : ℚ) ≠ 3 + 2 := by
  constructor
  · simp +decide [writeCountTwiceRun, createMetric, getValueTypeForMetricType,
      getRateIntervalForMetricType, StackMetric.writeCount, writeMetric,
      findMetric, mapSet, updateMetric, initialState, jsTruthy,
      TYPE_RATE_PER_SECOND, TYPE_INT64, TYPE_BOOL, TYPE_DOUBLE,
      TYPE_RATE_PER_MINUTE, TYPE_RATE_PER_HOUR, TYPE_RATE_PER_DAY,
      VALUE_TYPE_DOUBLE, VALUE_TYPE_INT64, VALUE_TYPE_BOOL]
    norm_num
  · norm_num

theorem preservesCore_refl (a : Metric) : preservesCore a a := ⟨rfl, rfl, rfl⟩

theorem preservesCore_trans (a b c : Metric) (h1 : preservesCore a b)
    (h2 : preservesCore b c) : preservesCore a c :=
  ⟨h2.1.trans h1.1, h2.2.1.trans h1.2.1, h2.2.2.trans h1.2.2⟩

theorem forall₂_preservesCore_trans (l1 l2 l3 : List Metric)
    (h12 : List.Forall₂ preservesCore l1 l2)
    (h23 : List.Forall₂ preservesCore l2 l3) :
    List.Forall₂ preservesCore l1 l3 := by
  induction h12 generalizing l3 with
  | nil => cases h23; exact .nil
  | cons hab _ ih =>
    cases h23 with
    | cons hbc h2 => exact .cons (preservesCore_trans _ _ _ hab hbc) (ih _ h2)

theorem updateMetric_forall₂ (ms : List Metric) (n : String) (f : Metric → Metric)
    (hf : ∀ y, preservesCore y (f y)) :
    List.Forall₂ preservesCore ms (updateMetric ms n f) := by
  induction ms with
  | nil => exact .nil
  | cons x rest ih =>
    unfold updateMetric
    split
    · exact .cons (hf x) (List.forall₂_same.2 fun y _ => preservesCore_refl y)
    · exact .cons (preservesCore_refl x) ih

theorem foldl_recordResponse_forall₂ (ps ms : List Metric) :
    List.Forall₂ preservesCore ms
      (ps.foldl (fun acc p => recordResponse acc p.requestDescriptor) ms) := by
  induction ps generalizing ms with
  | nil => exact List.forall₂_same.2 fun y _ => preservesCore_refl y
  | cons p ps ih =>
    refine forall₂_preservesCore_trans _ _ _ ?_ (ih _)
    exact updateMetric_forall₂ _ _ _ (fun y => ⟨rfl, rfl, rfl⟩)

/-- Phase 1 never touches `prevSendTimestamp` nor any metric's name, value or
rate interval. -/
theorem sendCreateMetrics_preserves (s : StackMetrics) (regOk : Bool)
    (s1 : StackMetrics) (h : sendCreateMetrics s regOk = some s1) :
    s1.prevSendTimestamp = s.prevSendTimestamp ∧
    List.Forall₂ preservesCore s.metricsMap s1.metricsMap := by
  unfold sendCreateMetrics at h
  split at h
  · simp only [Option.some.injEq] at h
    subst h
    exact ⟨rfl, List.forall₂_same.2 fun y _ => preservesCore_refl y⟩
  · split at h
    · simp only [Option.some.injEq] at h
      subst h
      exact ⟨rfl, foldl_recordResponse_forall₂ _ _⟩
    · exact absurd h (by simp)

/-- C3 counterexample: a rate metric holding the delta-sum 5 over a 2000 ms
window; the submission fails, yet afterwards the metric holds the converted
rate 5/2 — not the delta-sum 5 the claim promises.  The in-place rate
conversion overwrote the accumulator before the outcome was known. -/
theorem rate_accumulator_overwritten_on_failed_submission :
    (sendValues stateR 2000 true false).isSubmissionFailed = true ∧
    ((findMetric (sendValues stateR 2000 true false).state "r").map Metric.value) =
      some (some (5 / 2)) ∧
    rateMetricR.value = some 5 ∧ (5 / 2 : ℚ) ≠ 5 := by
  refine ⟨?_, ?_, rfl, by norm_num⟩
  · norm_num +decide [sendValues, sendCreateMetrics, pendingRegistrations,
      recordResponse, getMetricName, splitOnSlash, updateMetric,
      sendTimeSeries, convertMetric, includedInSeries, createTimeSeriesData,
      resetMetric, jsTruthy, stateR, rateMetricR, initialState,
      FlushOutcome.isSubmissionFailed]
  · norm_num +decide [sendValues, sendCreateMetrics, pendingRegistrations,
      recordResponse, getMetricName, splitOnSlash, updateMetric,
      sendTimeSeries, convertMetric, includedInSeries, createTimeSeriesData,
      resetMetric, jsTruthy, stateR, rateMetricR, initialState,
      FlushOutcome.state, findMetric]

/-- C3 as amended: when the time-series submission of a flush at `now` fails,
no reset happens — every non-rate metric still holds its pre-flush value —
but each rate-kind metric's accumulator has already been overwritten in place
by the converted rate `(S / (now - prev)) * u` (or `0` for `now - prev <= 0`),
not the delta-sum it held before the flush. -/
theorem failed_submission_preserves_gauges_overwrites_rates (s : StackMetrics)
    (now : ℚ) (regOk subOk : Bool) (s2 : StackMetrics)
    (h : sendValues s now regOk subOk = .submissionFailed s2) :
    s2.prevSendTimestamp = now ∧
    List.Forall₂ (fun a b => b.name = a.name ∧ b.rateInterval = a.rateInterval ∧
      (jsTruthy a.rateInterval = false → b.value = a.value) ∧
      (∀ u S, a.rateInterval = some u → u ≠ 0 → a.value = some S →
        b.value = some (if now - s.prevSendTimestamp > 0
          then S / (now - s.prevSendTimestamp) * u else 0)))
      s.metricsMap s2.metricsMap := by
  obtain ⟨s1, hreg, hst⟩ := sendValues_submissionFailed_elim s now regOk subOk s2 h
  obtain ⟨hprev, hpres⟩ := sendCreateMetrics_preserves s regOk s1 hreg
  have hs2 := sendTimeSeries_error_state s1 now subOk s2 hst
  subst hs2
  refine ⟨rfl, ?_⟩
  simp only [List.forall₂_map_right_iff]
  refine hpres.imp ?_
  intro a b hab
  obtain ⟨hname, hval, hrate⟩ := hab
  refine ⟨by rw [convertMetric_name, hname], by rw [convertMetric_rateInterval, hrate], ?_, ?_⟩
  · intro ht
    rw [convertMetric_of_not_truthy _ _ _ (by rw [hrate]; exact ht), hval]
  · intro u S hu hu0 hS
    have htr : jsTruthy b.rateInterval = true :=
      jsTruthy_of_some_ne u _ (by rw [hrate, hu]) hu0
    rw [convertMetric_value_of_truthy _ _ _ htr, hval, hS, hrate, hu, hprev]
    split <;> simp

/-- C3 witness for the amended claim: concrete failed flush of an instance
holding the rate metric (delta-sum 5) and a gauge (value 7); the gauge is
untouched and the rate accumulator holds the converted rate. -/
theorem failed_submission_amended_witness :
    sendValues stateRQ 2000 true false =
      .submissionFailed (sendValues stateRQ 2000 true false).state ∧
    ((sendValues stateRQ 2000 true false).state.prevSendTimestamp = 2000 ∧
      List.Forall₂ (fun a b => b.name = a.name ∧ b.rateInterval = a.rateInterval ∧
        (jsTruthy a.rateInterval = false → b.value = a.value) ∧
        (∀ u S, a.rateInterval = some u → u ≠ 0 → a.value = some S →
          b.value = some (if (2000 : ℚ) - stateRQ.prevSendTimestamp > 0
            then S / (2000 - stateRQ.prevSendTimestamp) * u else 0)))
        stateRQ.metricsMap (sendValues stateRQ 2000 true false).state.metricsMap) :=
  have hout : sendValues stateRQ 2000 true false =
      .submissionFailed (sendValues stateRQ 2000 true false).state :=
    submissionFailedOutcome_eq _ (by
      norm_num +decide [sendValues, sendCreateMetrics, pendingRegistrations,
        recordResponse, getMetricName, splitOnSlash, updateMetric,
        sendTimeSeries, convertMetric, includedInSeries, createTimeSeriesData,
        resetMetric, jsTruthy, stateRQ, rateMetricR, gaugeMetricQ, initialState,
        FlushOutcome.isSubmissionFailed])
  ⟨hout, failed_submission_preserves_gauges_overwrites_rates stateRQ 2000 true
    false (sendValues stateRQ 2000 true false).state hout⟩

/-- C4: after every flush whose submission succeeds, every rate-kind metric's
accumulator is exactly `0` and every non-rate metric's accumulator is
`undefined`, regardless of the pre-flush values.  (The code resets every
metric of the map, so this holds for all completed cycles; in the
nothing-submitted case every metric was already in this shape.) -/
theorem successful_flush_resets_accumulators (s : StackMetrics) (now : ℚ)
    (regOk subOk : Bool) (pts : List TimeSeriesEntry) (s2 : StackMetrics)
    (h : sendValues s now regOk subOk = .flushed pts s2) :
    ∀ m ∈ s2.metricsMap, (jsTruthy m.rateInterval = true → m.value = some 0) ∧
      (jsTruthy m.rateInterval = false → m.value = none) :=
  flushed_values s now regOk subOk pts s2 h

/-- C4 witness: a successful flush of an instance holding a rate metric with
delta-sum 5 and a gauge holding 7 leaves the rate accumulator at 0 and the
gauge accumulator undefined. -/
theorem successful_flush_resets_accumulators_witness :
    sendValues stateRQ 2000 true true =
      .flushed (sendValues stateRQ 2000 true true).points
        (sendValues stateRQ 2000 true true).state ∧
    ∀ m ∈ (sendValues stateRQ 2000 true true).state.metricsMap,
      (jsTruthy m.rateInterval = true → m.value = some 0) ∧
      (jsTruthy m.rateInterval = false → m.value = none) :=
  ⟨flushedOutcome_eq _ (by
     norm_num +decide [sendValues, sendCreateMetrics, pendingRegistrations,
       recordResponse, getMetricName, splitOnSlash, updateMetric,
       sendTimeSeries, convertMetric, includedInSeries, createTimeSeriesData,
       resetMetric, jsTruthy, stateRQ, rateMetricR, gaugeMetricQ, initialState,
       FlushOutcome.isFlushed]),
   successful_flush_resets_accumulators stateRQ 2000 true true _ _
     (flushedOutcome_eq _ (by
       norm_num +decide [sendValues, sendCreateMetrics, pendingRegistrations,
         recordResponse, getMetricName, splitOnSlash, updateMetric,
         sendTimeSeries, convertMetric, includedInSeries, createTimeSeriesData,
         resetMetric, jsTruthy, stateRQ, rateMetricR, gaugeMetricQ,
         initialState, FlushOutcome.isFlushed]))⟩

theorem find?_updateMetric (ms : List Metric) (n : String) (f : Metric → Metric)
    (hf : ∀ y, (f y).name = y.name) :
    (updateMetric ms n f).find? (fun m => m.name = n) =
      (ms.find? (fun m => m.name = n)).map f := by
  induction ms with
  | nil => rfl
  | cons x rest ih =>
    unfold updateMetric
    by_cases hx : x.name = n
    · rw [if_pos hx]
      simp [List.find?_cons, hf x, hx]
    · rw [if_neg hx]
      simp [List.find?_cons, hx, ih]

/-- C5 counterexample: writing the gauge-style absolute value 4 to the
rate-kind metric "r" does not fail with any kind-mismatch error — the write
succeeds and the value is added to the accumulator (5 + 4 = 9). -/
theorem kind_mismatch_not_detected :
    (writeMetric stateR "r" 4).isSome = true ∧
    ((writeMetric stateR "r" 4).bind (fun s2 => (findMetric s2 "r").map Metric.value)) =
      some (some 9) := by
  constructor <;>
    norm_num +decide [writeMetric, findMetric, updateMetric, jsTruthy, stateR,
      rateMetricR, initialState]

/-- C5 as amended: a write naming a metric that was never created fails
synchronously (the lookup yields `undefined` and the property access throws a
TypeError — there is no `UnknownMetricError` class) and no state is produced;
a write to an existing metric never fails on a kind mismatch: whatever the
caller intended, the value is applied according to the metric's stored kind —
added to the accumulator when `rateInterval` is truthy, stored verbatim
otherwise. -/
theorem write_unknown_throws_mismatch_undetected (s : StackMetrics)
    (metricName : String) (v : ℚ) :
    (findMetric s metricName = none → writeMetric s metricName v = none) ∧
    (∀ m, findMetric s metricName = some m →
      ∃ s2, writeMetric s metricName v = some s2 ∧
        findMetric s2 metricName = some (if jsTruthy m.rateInterval
          then { m with value := m.value.map (· + v) }
          else { m with value := some v })) := by
  constructor
  · intro hnone
    unfold writeMetric
    rw [hnone]
  · intro m hm
    unfold writeMetric
    rw [hm]
    refine ⟨_, rfl, ?_⟩
    show (updateMetric s.metricsMap metricName _).find? _ = _
    rw [find?_updateMetric _ _ _ (fun y => by split <;> rfl)]
    unfold findMetric at hm
    rw [hm]
    rfl

/-- C5 witness for the amended claim: on the concrete instance, the write to
the existing rate metric succeeds and adds to the accumulator. -/
theorem write_unknown_throws_mismatch_undetected_witness :
    findMetric stateR "r" = some rateMetricR ∧
    ∃ s2, writeMetric stateR "r" 4 = some s2 ∧
      findMetric s2 "r" = some (if jsTruthy rateMetricR.rateInterval
        then { rateMetricR with value := rateMetricR.value.map (· + 4) }
        else { rateMetricR with value := some (4 : ℚ) }) :=
  ⟨by decide,
   (write_unknown_throws_mismatch_undetected stateR "r" 4).2 rateMetricR (by decide)⟩

/-- An empty batch is not submitted and is not an error: Phase 2 just advances
the window over the converted (identically, unconverted) map. -/
theorem sendTimeSeries_of_empty_points (s : StackMetrics) (now : ℚ)
    (subOk : Bool) (hempty : flushPoints s now = []) :
    sendTimeSeries s now subOk = Except.ok ([],
      { s with prevSendTimestamp := now,
               metricsMap := s.metricsMap.map (convertMetric s.prevSendTimestamp now) }) := by
  unfold flushPoints at hempty
  unfold sendTimeSeries
  dsimp only
  rw [hempty]
  rfl

/-- C6: the batch built by a flush consists of exactly one entry per metric
that is rate-kind (truthy `rateInterval` — included no matter what its
converted value is, `0` included) or has a written (non-`undefined`) value;
and when this batch is empty, Phase 2 submits nothing and completes without
error, only advancing the window. -/
theorem flush_point_set_characterization (s : StackMetrics) (now : ℚ)
    (subOk : Bool) :
    flushPoints s now =
      (s.metricsMap.filter (fun m => jsTruthy m.rateInterval || m.value.isSome)).map
        (fun m => createTimeSeriesData now (convertMetric s.prevSendTimestamp now m)) ∧
    (flushPoints s now = [] →
      sendTimeSeries s now subOk = Except.ok ([],
        { s with prevSendTimestamp := now,
                 metricsMap := s.metricsMap.map (convertMetric s.prevSendTimestamp now) })) := by
  constructor
  · unfold flushPoints
    rw [List.filter_map (convertMetric s.prevSendTimestamp now) s.metricsMap,
      List.map_map]
    congr 1
    apply List.filter_congr
    intro m _
    by_cases ht : jsTruthy m.rateInterval = true
    · simp [includedInSeries, Function.comp, ht]
    · rw [Bool.not_eq_true] at ht
      simp only [Function.comp_apply, includedInSeries,
        convertMetric_of_not_truthy _ _ _ ht]
  · exact sendTimeSeries_of_empty_points s now subOk

/-- C6 witness: an instance with no metrics flushes an empty batch and the
cycle ends without error, with only the window advanced. -/
theorem flush_point_set_characterization_witness :
    flushPoints initialState 5 =
      (initialState.metricsMap.filter
        (fun m => jsTruthy m.rateInterval || m.value.isSome)).map
        (fun m => createTimeSeriesData 5 (convertMetric initialState.prevSendTimestamp 5 m)) ∧
    sendTimeSeries initialState 5 true = Except.ok ([],
      { initialState with prevSendTimestamp := 5,
                          metricsMap := initialState.metricsMap.map
                            (convertMetric initialState.prevSendTimestamp 5) }) :=
  ⟨(flush_point_set_characterization initialState 5 true).1,
   (flush_point_set_characterization initialState 5 true).2 rfl⟩

theorem updateMetric_names (ms : List Metric) (n : String) (f : Metric → Metric)
    (hf : ∀ y, (f y).name = y.name) :
    (updateMetric ms n f).map Metric.name = ms.map Metric.name := by
  induction ms with
  | nil => rfl
  | cons x rest ih =>
    unfold updateMetric
    split
    · simp [hf x]
    · simp [ih]

theorem updateMetric_mem_cases (ms : List Metric) (n : String)
    (f : Metric → Metric) (hnodup : (ms.map Metric.name).Nodup) (x : Metric)
    (hx : x ∈ updateMetric ms n f) :
    (∃ y ∈ ms, y.name = n ∧ x = f y) ∨ (x ∈ ms ∧ x.name ≠ n) := by
  induction ms with
  | nil => cases hx
  | cons m rest ih =>
    simp only [List.map_cons, List.nodup_cons] at hnodup
    unfold updateMetric at hx
    by_cases hm : m.name = n
    · rw [if_pos hm] at hx
      rcases List.mem_cons.1 hx with rfl | hxr
      · exact Or.inl ⟨m, List.mem_cons_self m rest, hm, rfl⟩
      · refine Or.inr ⟨List.mem_cons_of_mem m hxr, ?_⟩
        intro hxn
        apply hnodup.1
        have hmem : x.name ∈ List.map Metric.name rest :=
          List.mem_map_of_mem Metric.name hxr
        rw [hxn, ← hm] at hmem
        exact hmem
    · rw [if_neg hm] at hx
      rcases List.mem_cons.1 hx with rfl | hxr
      · exact Or.inr ⟨List.mem_cons_self x rest, hm⟩
      · rcases ih hnodup.2 hxr with ⟨y, hy, hyn, hxy⟩ | ⟨hmem, hne⟩
        · exact Or.inl ⟨y, List.mem_cons_of_mem m hy, hyn, hxy⟩
        · exact Or.inr ⟨List.mem_cons_of_mem m hmem, hne⟩

/-- Processing the registration responses of the metrics in `ps` marks every
entry of `ms` registered, provided every unregistered entry of `ms` is named
in `ps` and the response correlation (last path segment of the descriptor
type) recovers each name. -/
theorem foldl_recordResponse_all_registered (ps : List Metric) :
    ∀ ms : List Metric, (ms.map Metric.name).Nodup →
    (∀ p ∈ ps, getMetricName p.requestDescriptor.type = p.name) →
    (∀ m ∈ ms, m.responseDescriptor = none → m.name ∈ ps.map Metric.name) →
    ∀ x ∈ ps.foldl (fun acc p => recordResponse acc p.requestDescriptor) ms,
      x.responseDescriptor.isSome = true := by
  induction ps with
  | nil =>
    intro ms _ _ hinv x hx
    cases hres : x.responseDescriptor with
    | none => exact absurd (hinv x hx hres) (by simp)
    | some d => rfl
  | cons p ps ih =>
    intro ms hnodup hps hinv x hx
    rw [List.foldl_cons] at hx
    refine ih (recordResponse ms p.requestDescriptor) ?_
      (fun q hq => hps q (List.mem_cons_of_mem p hq)) ?_ x hx
    · have heq := updateMetric_names ms (getMetricName p.requestDescriptor.type)
        (fun m => { m with responseDescriptor := some p.requestDescriptor })
        (fun y => rfl)
      unfold recordResponse
      rw [heq]
      exact hnodup
    · intro m hm hres
      unfold recordResponse at hm
      rw [hps p (List.mem_cons_self p ps)] at hm
      rcases updateMetric_mem_cases ms p.name _ hnodup m hm with
        ⟨y, -, -, rfl⟩ | ⟨hmem, hne⟩
      · cases hres
      · have := hinv m hmem hres
        simp only [List.map_cons, List.mem_cons] at this
        rcases this with hmn | hmn
        · exact absurd hmn hne
        · exact hmn

/-- A non-failing Phase 1 leaves every metric registered (pending was either
empty, or every pending metric's response was recorded). -/
theorem sendCreateMetrics_registers_all (s : StackMetrics) (regOk : Bool)
    (s1 : StackMetrics) (hnodup : (s.metricsMap.map Metric.name).Nodup)
    (hnames : ∀ m ∈ s.metricsMap, getMetricName m.requestDescriptor.type = m.name)
    (h : sendCreateMetrics s regOk = some s1) :
    ∀ x ∈ s1.metricsMap, x.responseDescriptor.isSome = true := by
  unfold sendCreateMetrics at h
  split at h
  · next hpend =>
    simp only [Option.some.injEq] at h
    subst h
    intro x hx
    cases hres : x.responseDescriptor with
    | none =>
      have : x ∈ pendingRegistrations s := by
        unfold pendingRegistrations
        exact List.mem_filter.2 ⟨hx, by rw [hres]; rfl⟩
      rw [hpend] at this
      cases this
    | some d => rfl
  · split at h
    · simp only [Option.some.injEq] at h
      subst h
      intro x hx
      refine foldl_recordResponse_all_registered _ s.metricsMap hnodup
        (fun p hp => hnames p (List.mem_filter.1 hp).1) ?_ x hx
      intro m hm hres
      refine List.mem_map_of_mem Metric.name ?_
      exact List.mem_filter.2 ⟨hm, by rw [hres]; rfl⟩
    · exact absurd h (by simp)

/-- C7 counterexample: an instance holding one rate metric and one gauge;
both flushes complete, yet the second flush (same timestamp, no intervening
writes) submits a NON-empty batch — the rate metric is always included, with
rate 0. -/
theorem second_flush_submits_rate_points :
    (sendValues stateRQ 1000 true true).isFlushed = true ∧
    (sendValues ((sendValues stateRQ 1000 true true).state) 1000 true true).isFlushed
      = true ∧
    (sendValues ((sendValues stateRQ 1000 true true).state) 1000 true true).points
      ≠ [] := by
  refine ⟨?_, ?_, ?_⟩ <;>
    norm_num +decide [sendValues, sendCreateMetrics, pendingRegistrations,
      recordResponse, getMetricName, splitOnSlash, updateMetric,
      sendTimeSeries, convertMetric, includedInSeries, createTimeSeriesData,
      resetMetric, jsTruthy, stateRQ, rateMetricR, gaugeMetricQ, initialState,
      FlushOutcome.isFlushed, FlushOutcome.state, FlushOutcome.points]

/-- C7 as amended: after a completed flush (for an instance whose metric names
are unique and recoverable from the descriptor types, as `createMetric`
guarantees), a second flush with no intervening writes performs no
registration calls (nothing is pending); its point set consists of exactly
the rate-kind metrics, each converted; and only when the instance holds no
rate-kind metric is the second point set empty and nothing submitted. -/
theorem second_flush_registrationless_rate_only (s : StackMetrics) (t : ℚ)
    (regOk subOk : Bool) (pts : List TimeSeriesEntry) (s1 : StackMetrics)
    (hnodup : (s.metricsMap.map Metric.name).Nodup)
    (hnames : ∀ m ∈ s.metricsMap, getMetricName m.requestDescriptor.type = m.name)
    (h : sendValues s t regOk subOk = .flushed pts s1) :
    pendingRegistrations s1 = [] ∧
    (∀ now2, flushPoints s1 now2 =
      ((s1.metricsMap.map (convertMetric s1.prevSendTimestamp now2)).filter
        (fun m => jsTruthy m.rateInterval)).map (createTimeSeriesData now2)) ∧
    ((∀ m ∈ s1.metricsMap, jsTruthy m.rateInterval = false) →
      ∀ now2 regOk2 subOk2, ∃ s3, sendValues s1 now2 regOk2 subOk2 = .flushed [] s3) := by
  obtain ⟨smid, hreg, hst⟩ := sendValues_flushed_elim s t regOk subOk pts s1 h
  have hallreg := sendCreateMetrics_registers_all s regOk smid hnodup hnames hreg
  have hvals := flushed_values s t regOk subOk pts s1 h
  have hpend : pendingRegistrations s1 = [] := by
    unfold pendingRegistrations
    apply List.filter_eq_nil_iff.2
    intro x hx
    rcases sendTimeSeries_ok_state smid t subOk pts s1 hst with hres | ⟨-, hconv, -⟩
    · rw [hres, List.map_map] at hx
      simp only [List.mem_map, Function.comp_apply] at hx
      obtain ⟨y, hy, rfl⟩ := hx
      have := hallreg y hy
      simp only [resetMetric_responseDescriptor, convertMetric_responseDescriptor]
      simp only [Option.isSome_iff_ne_none] at this
      simpa using this
    · rw [hconv] at hx
      simp only [List.mem_map] at hx
      obtain ⟨y, hy, rfl⟩ := hx
      have := hallreg y hy
      simp only [convertMetric_responseDescriptor]
      simp only [Option.isSome_iff_ne_none] at this
      simpa using this
  refine ⟨hpend, ?_, ?_⟩
  · intro now2
    unfold flushPoints
    congr 1
    apply List.filter_congr
    intro x hx
    simp only [List.mem_map] at hx
    obtain ⟨y, hy, rfl⟩ := hx
    by_cases ht : jsTruthy y.rateInterval = true
    · simp [includedInSeries, ht]
    · rw [Bool.not_eq_true] at ht
      have hyv : y.value = none := (hvals y hy).2 ht
      rw [convertMetric_of_not_truthy _ _ _ ht]
      simp [includedInSeries, ht, hyv]
  · intro hnorate now2 regOk2 subOk2
    have hempty : flushPoints s1 now2 = [] := by
      unfold flushPoints
      rw [List.filter_eq_nil_iff.2, List.map_nil]
      intro x hx
      simp only [List.mem_map] at hx
      obtain ⟨y, hy, rfl⟩ := hx
      have ht := hnorate y hy
      have hyv : y.value = none := (hvals y hy).2 ht
      rw [convertMetric_of_not_truthy _ _ _ ht]
      simp [includedInSeries, ht, hyv]
    have hc1 : sendCreateMetrics s1 regOk2 = some s1 := by
      unfold sendCreateMetrics
      rw [if_pos hpend]
    have hc2 := sendTimeSeries_of_empty_points s1 now2 subOk2 hempty
    refine ⟨{ s1 with prevSendTimestamp := now2,
                      metricsMap := s1.metricsMap.map
                        (convertMetric s1.prevSendTimestamp now2) }, ?_⟩
    simp only [sendValues, hc1, hc2]

/-- C7 witness for the amended claim: after a completed concrete first flush,
nothing is pending, the second point set is exactly the rate metrics, and the
empty-set conclusion is available only under the no-rate-metric hypothesis. -/
theorem second_flush_registrationless_rate_only_witness :
    ((stateRQ.metricsMap.map Metric.name).Nodup ∧
      (∀ m ∈ stateRQ.metricsMap, getMetricName m.requestDescriptor.type = m.name) ∧
      sendValues stateRQ 1000 true true =
        .flushed (sendValues stateRQ 1000 true true).points
          (sendValues stateRQ 1000 true true).state) ∧
    (pendingRegistrations (sendValues stateRQ 1000 true true).state = [] ∧
      (∀ now2, flushPoints (sendValues stateRQ 1000 true true).state now2 =
        (((sendValues stateRQ 1000 true true).state.metricsMap.map
            (convertMetric (sendValues stateRQ 1000 true true).state.prevSendTimestamp
              now2)).filter
          (fun m => jsTruthy m.rateInterval)).map (createTimeSeriesData now2)) ∧
      ((∀ m ∈ (sendValues stateRQ 1000 true true).state.metricsMap,
          jsTruthy m.rateInterval = false) →
        ∀ now2 regOk2 subOk2, ∃ s3,
          sendValues (sendValues stateRQ 1000 true true).state now2 regOk2 subOk2 =
            .flushed [] s3)) :=
  have hflush : sendValues stateRQ 1000 true true =
      .flushed (sendValues stateRQ 1000 true true).points
        (sendValues stateRQ 1000 true true).state :=
    flushedOutcome_eq _ (by
      norm_num +decide [sendValues, sendCreateMetrics, pendingRegistrations,
        recordResponse, getMetricName, splitOnSlash, updateMetric,
        sendTimeSeries, convertMetric, includedInSeries, createTimeSeriesData,
        resetMetric, jsTruthy, stateRQ, rateMetricR, gaugeMetricQ, initialState,
        FlushOutcome.isFlushed])
  ⟨⟨by decide, by decide, hflush⟩,
   second_flush_registrationless_rate_only stateRQ 1000 true true _ _
     (by decide) (by decide) hflush⟩

/-- C8: when descriptor registration fails while registrations are pending,
the whole cycle fails with the state exactly as it was: the submission phase
is never entered, no accumulator is mutated, and the pending set of the next
cycle is unchanged. -/
theorem registration_failure_aborts_cycle (s : StackMetrics) (now : ℚ)
    (subOk : Bool) (h : pendingRegistrations s ≠ []) :
    sendValues s now false subOk = .registrationFailed s := by
  simp [sendValues, sendCreateMetrics, h]

/-- C8 witness: an unregistered rate metric makes registration pending; a
failing registration aborts the cycle with the state unchanged. -/
theorem registration_failure_aborts_cycle_witness :
    pendingRegistrations stateR ≠ [] ∧
    sendValues stateR 2000 false true = .registrationFailed stateR :=
  ⟨by decide, registration_failure_aborts_cycle stateR 2000 true (by decide)⟩

/-- C9: the submission phase advances `prevSendTimestamp` to the flush
timestamp before the submission outcome is known, so the resulting state
carries `prevSendTimestamp = now` whether the batch succeeds, fails, or is
empty; after a failed submission the next rate window therefore starts at
`now`. -/
theorem prevSendTimestamp_advanced_unconditionally (s : StackMetrics)
    (now : ℚ) (subOk : Bool) :
    (submissionResultState (sendTimeSeries s now subOk)).prevSendTimestamp = now := by
  simp only [sendTimeSeries]
  split
  · split <;> rfl
  · rfl

/-- C10: `createMetric` with a metric type outside the seven known kinds fails
(the value-type lookup throws inside the descriptor literal) before anything
is stored: no state is produced and no handle is returned. -/
theorem createMetric_unknown_type_rejected (s : StackMetrics)
    (metricName metricDescription metricType : String)
    (h : metricType ∉ [TYPE_INT64, TYPE_BOOL, TYPE_DOUBLE, TYPE_RATE_PER_SECOND,
      TYPE_RATE_PER_MINUTE, TYPE_RATE_PER_HOUR, TYPE_RATE_PER_DAY]) :
    createMetric s metricName metricDescription metricType = none := by
  simp only [List.mem_cons, List.not_mem_nil, or_false, not_or] at h
  obtain ⟨h1, h2, h3, h4, h5, h6, h7⟩ := h
  simp [createMetric, getValueTypeForMetricType, h1, h2, h3, h4, h5, h6, h7]

/-- C10 witness: the unknown type "HISTOGRAM" is rejected with no state
change. -/
theorem createMetric_unknown_type_rejected_witness :
    "HISTOGRAM" ∉ [TYPE_INT64, TYPE_BOOL, TYPE_DOUBLE, TYPE_RATE_PER_SECOND,
      TYPE_RATE_PER_MINUTE, TYPE_RATE_PER_HOUR, TYPE_RATE_PER_DAY] ∧
    createMetric initialState "h1" "d" "HISTOGRAM" = none :=
  ⟨by decide,
   createMetric_unknown_type_rejected initialState "h1" "d" "HISTOGRAM" (by decide)⟩

end StackMetricsSpec
